import Mathlib

/-!
Verification of the personal-website client script (src/script.js).

The development embeds, in Lean, the parts of the script that the
specification talks about: the ThemeToggle and ContactForm components,
and the CosmicWeb canvas animation (procedural structure generation and
the per-frame draw loop).  Real-number arithmetic of the source is
modelled with the exact reals; the stream of Math.random() draws is an
explicit function from draw indices to real values.
-/

namespace PersonalWeb

/-! ### Theme toggle (script.js lines 644-679)

The DOM state the component touches: the value stored under the key
"theme" in localStorage, the data-theme attribute of the document
element, and the class of the toggle-button icon. -/

structure ThemeDom where
  store : Option String
  dataTheme : Option String
  iconClass : String

/-- JS boolean coercion used by the source in `v || d`: a null (absent)
or empty string falls back to the default. -/
def orDefault (v : Option String) (d : String) : String :=
  match v with
  | none => d
  | some s => if s = "" then d else s

/-- ThemeToggle.applyTheme (lines 669-678): sets the data-theme
attribute and the icon class. -/
def applyTheme (dom : ThemeDom) (theme : String) : ThemeDom :=
  { dom with
    dataTheme := some theme
    iconClass := if theme = "light" then "fas fa-sun" else "fas fa-moon" }

/-- ThemeToggle constructor plus init (lines 645-656): currentTheme is
read from localStorage with default "dark", and applied.  Returns the
instance field currentTheme together with the updated DOM. -/
def themeToggleNew (dom : ThemeDom) : String × ThemeDom :=
  let currentTheme := orDefault dom.store "dark"
  (currentTheme, applyTheme dom currentTheme)

/-- ThemeToggle.toggleTheme (lines 658-667): flip the theme, apply it,
store it under the key "theme". -/
def toggleTheme (currentTheme : String) (dom : ThemeDom) : String × ThemeDom :=
  let next := if currentTheme = "dark" then "light" else "dark"
  let dom1 := applyTheme dom next
  (next, { dom1 with store := some next })

/-! ### Contact form (script.js lines 715-823)

The state the handler touches: the form fields, the submit button
(label and disabled flag), and the list of notifications shown so far,
each a (message, type) pair. -/

structure FormState where
  fields : List (String × String)
  btnHTML : String
  btnDisabled : Bool
  notifications : List (String × String)

/-- The rejection message of simulateFormSubmission (line 766). -/
def failMessage : String := "Failed to send message. Please try again."

/-- The success-notification message (line 773); the source text carries
a second sentence, omitted here because it contains a quote character. -/
def successMessage : String := "Message sent successfully!"

/-- ContactForm.simulateFormSubmission (lines 759-770): resolves when
the random draw exceeds 0.1, otherwise rejects with failMessage. -/
def simulateFormSubmission (r : ℚ) : Except String Unit :=
  if r > 0.1 then Except.ok () else Except.error failMessage

/-- ContactForm.setLoadingState (lines 749-757). -/
def setLoadingState (originalBtnText : String) (s : FormState) (loading : Bool) : FormState :=
  if loading then
    { s with btnHTML := "<i class=\"fas fa-spinner fa-spin\"></i> Sending...", btnDisabled := true }
  else
    { s with btnHTML := originalBtnText, btnDisabled := false }

/-- ContactForm.showNotification (lines 780-823): appends a
(message, type) notification. -/
def showNotification (s : FormState) (message ty : String) : FormState :=
  { s with notifications := s.notifications ++ [(message, ty)] }

/-- ContactForm.handleSubmit (lines 728-747): loading state on, await
the simulated submission, success notification plus form reset on
resolve, error notification on reject, loading state off in both
cases (the finally block). -/
def handleSubmit (originalBtnText : String) (r : ℚ) (s : FormState) : FormState :=
  let s1 := setLoadingState originalBtnText s true
  match simulateFormSubmission r with
  | Except.ok _ =>
      let s2 := showNotification s1 successMessage "success"
      let s3 := { s2 with fields := [] }
      setLoadingState originalBtnText s3 false
  | Except.error msg =>
      setLoadingState originalBtnText (showNotification s1 msg "error") false

/-! ### CosmicWeb data model (script.js lines 7-40, 97-130)

Coordinates are exact reals.  The stream of Math.random() results is a
function ρ from draw indices to real values; every consumer records
which indices it reads. -/

noncomputable section

@[ext]
structure Pt where
  x : ℝ
  y : ℝ

/-- The four cubic Bezier control points a filament record carries. -/
structure BezierPts where
  p0 : Pt
  p1 : Pt
  p2 : Pt
  p3 : Pt

inductive FilamentType
  | major
  | background
deriving DecidableEq

structure Filament extends BezierPts where
  type : FilamentType
  depth : ℝ
  angle3D : ℝ

structure Cluster where
  x : ℝ
  y : ℝ
  connections : ℕ

structure Galaxy where
  x : ℝ
  y : ℝ
  baseSize : ℝ
  phase : ℝ
  dist : ℝ
  filamentDepth : ℝ

/-- The portraitCenter record built by updatePortraitPosition
(lines 102-130). -/
structure Center where
  x : ℝ
  y : ℝ
  radius : ℝ
  visible : Bool
  isPortraitOrigin : Bool

/-- The mutable fields of a CosmicWeb instance (lines 8-40). -/
structure CWState where
  canvasW : ℝ
  canvasH : ℝ
  filaments : List Filament
  clusters : List Cluster
  galaxies : List Galaxy
  portraitCenter : Option Center
  initialPortraitCenter : Option Center
  time : ℝ
  offsetX : ℝ
  offsetY : ℝ

/-- The config object (lines 23-37); the colors table is not modelled. -/
structure Config where
  majorFilaments : ℕ
  intermediateFilaments : ℕ
  minorFilaments : ℕ
  pointsPerFilament : ℕ
  wedgeAngle : ℝ
  maxRadius : ℝ
  clusterCount : ℕ
  shimmerSpeed : ℝ
  motionAmplitude : ℝ
  aberrationOffset : ℝ

def config : Config :=
  { majorFilaments := 10
    intermediateFilaments := 0
    minorFilaments := 0
    pointsPerFilament := 1200
    wedgeAngle := Real.pi * 2
    maxRadius := 600
    clusterCount := 35
    shimmerSpeed := 0.003
    motionAmplitude := 2
    aberrationOffset := 3 }

/-- The local maxRadius of generateCosmicStructure and the draw
routines (lines 159, 371, 412, 495). -/
def genMaxRadius : ℝ := 2000

/-- CosmicWeb.bezierPoint (lines 290-298). -/
def bezierPoint (f : BezierPts) (t : ℝ) : Pt :=
  let inv := 1 - t
  { x := inv * inv * inv * f.p0.x + 3 * inv * inv * t * f.p1.x +
         3 * inv * t * t * f.p2.x + t * t * t * f.p3.x
    y := inv * inv * inv * f.p0.y + 3 * inv * inv * t * f.p1.y +
         3 * inv * t * t * f.p2.y + t * t * t * f.p3.y }

structure Tangent where
  dx : ℝ
  dy : ℝ

/-- CosmicWeb.bezierTangent (lines 300-308). -/
def bezierTangent (f : BezierPts) (t : ℝ) : Tangent :=
  let inv := 1 - t
  { dx := 3 * inv * inv * (f.p1.x - f.p0.x) + 6 * inv * t * (f.p2.x - f.p1.x) +
          3 * t * t * (f.p3.x - f.p2.x)
    dy := 3 * inv * inv * (f.p1.y - f.p0.y) + 6 * inv * t * (f.p2.y - f.p1.y) +
          3 * t * t * (f.p3.y - f.p2.y) }

/-- CosmicWeb.rand (lines 132-134) reading the draw at index j. -/
def rand (ρ : ℕ → ℝ) (j : ℕ) (a b : ℝ) : ℝ := ρ j * (b - a) + a

open Classical in
/-- The index of the first draw at or after j that is nonzero: models
the `while (u === 0)` retry loops of gauss.  If every draw from j on is
zero the source loop does not terminate; this total model then returns
j itself (a case excluded for genuine Math.random() streams). -/
def firstNonzero (ρ : ℕ → ℝ) (j : ℕ) : ℕ :=
  if h : ∃ k, ρ (j + k) ≠ 0 then j + Nat.find h else j

/-- CosmicWeb.gauss (lines 136-141): Box-Muller from two nonzero draws.
Returns the sample and the next unread draw index. -/
def gauss (ρ : ℕ → ℝ) (j : ℕ) (m s : ℝ) : ℝ × ℕ :=
  let ju := firstNonzero ρ j
  let u := ρ ju
  let jv := firstNonzero ρ (ju + 1)
  let v := ρ jv
  (m + s * Real.sqrt (-2 * Real.log u) * Real.cos (2 * Real.pi * v), jv + 1)

/-- CosmicWeb.inWedge (lines 143-150): false when portraitCenter is
null, otherwise the point lies outside 1.1 times the origin radius. -/
def inWedge (c : Option Center) (x y : ℝ) : Prop :=
  match c with
  | none => False
  | some o =>
      Real.sqrt ((x - o.x) * (x - o.x) + (y - o.y) * (y - o.y)) > o.radius * 1.1

/-! ### Structure generation (script.js lines 152-288)

Draw-index bookkeeping inside generateCosmicStructure: each cluster
consumes five draws (indices 5i .. 5i+4), each background filament one
draw, and the galaxy loop then consumes a data-dependent number of
draws threaded through an explicit index. -/

/-- One cluster of the seeding loop (lines 167-173), reading the five
draws starting at index j. -/
def mkCluster (o : Center) (ρ : ℕ → ℝ) (j : ℕ) : Cluster :=
  let r := (ρ j) ^ (0.8 : ℝ) * genMaxRadius * rand ρ (j + 1) 0.3 1
  let a := ρ (j + 2) * Real.pi * 2
  let x := o.x + r * Real.cos a + rand ρ (j + 3) (-30) 30
  let y := o.y + r * Real.sin a + rand ρ (j + 4) (-30) 30
  { x := x, y := y, connections := 0 }

def genClusters (o : Center) (ρ : ℕ → ℝ) (j : ℕ) : List Cluster :=
  (List.range config.clusterCount).map (fun i => mkCluster o ρ (j + 5 * i))

/-- The i-th major filament (lines 178-216); its construction reads no
random draws. -/
def majorFilament (o : Center) (i : ℕ) : Filament :=
  let angle := ((i : ℝ) / (config.majorFilaments : ℝ)) * Real.pi * 2
  let startX := o.x + o.radius * Real.cos angle
  let startY := o.y + o.radius * Real.sin angle
  let aberrationDirection := Real.pi + Real.pi / 3
  let alignmentWithAberration := Real.cos (angle - aberrationDirection)
  let variableSkew := alignmentWithAberration * (-0.4)
  let aberratedAngle := angle + variableSkew
  let endX := o.x + genMaxRadius * Real.cos aberratedAngle
  let endY := o.y + genMaxRadius * Real.sin aberratedAngle
  let angle3D := Real.sin (angle * 2) * Real.pi / 2
  { p0 := ⟨startX, startY⟩
    p1 := ⟨startX + (endX - startX) * 0.33, startY + (endY - startY) * 0.33⟩
    p2 := ⟨startX + (endX - startX) * 0.67, startY + (endY - startY) * 0.67⟩
    p3 := ⟨endX, endY⟩
    type := FilamentType.major
    depth := 1.0
    angle3D := angle3D }

/-- The i-th of the five background filaments (lines 220-252), reading
the draw at index j + i for its angular offset. -/
def backgroundFilament (o : Center) (ρ : ℕ → ℝ) (j : ℕ) (i : ℕ) : Filament :=
  let angleStep := Real.pi * 2 / (config.majorFilaments : ℝ)
  let majorFilamentIndex := ⌊(i : ℝ) * ((config.majorFilaments : ℝ) / 5)⌋
  let angle := (majorFilamentIndex : ℝ) * angleStep + angleStep * (0.35 + ρ (j + i) * 0.1)
  let startX := o.x + o.radius * Real.cos angle
  let startY := o.y + o.radius * Real.sin angle
  let alignmentWithAberration := Real.cos (angle - (Real.pi + Real.pi / 3))
  let variableSkew := alignmentWithAberration * (-0.4)
  let aberratedAngle := angle + variableSkew
  let endX := o.x + genMaxRadius * 0.85 * Real.cos aberratedAngle
  let endY := o.y + genMaxRadius * 0.85 * Real.sin aberratedAngle
  let angle3D := Real.sin (angle * 2 + Real.pi / 4) * Real.pi / 2
  { p0 := ⟨startX, startY⟩
    p1 := ⟨startX + (endX - startX) * 0.33, startY + (endY - startY) * 0.33⟩
    p2 := ⟨startX + (endX - startX) * 0.67, startY + (endY - startY) * 0.67⟩
    p3 := ⟨endX, endY⟩
    type := FilamentType.background
    depth := 0.15
    angle3D := angle3D }

/-- The full filament list: ten major filaments followed by five
background filaments (lines 178-252). -/
def genFilaments (o : Center) (ρ : ℕ → ℝ) (j : ℕ) : List Filament :=
  (List.range config.majorFilaments).map (majorFilament o) ++
    (List.range 5).map (backgroundFilament o ρ j)

open Classical in
/-- One iteration of the galaxy loop body (lines 258-286) at curve
index i; the accumulator carries the galaxies so far and the next
unread draw index.  Points inside 1.1 times the origin radius are
skipped before any draw is consumed.  The source expressions
`len || 1` and `f.depth || 1.0` fall back on a zero value. -/
def galaxyStep (o : Center) (ρ : ℕ → ℝ) (f : Filament)
    (acc : List Galaxy × ℕ) (i : ℕ) : List Galaxy × ℕ :=
  let t := (i : ℝ) / (config.pointsPerFilament : ℝ)
  let pos := bezierPoint f.toBezierPts t
  if inWedge (some o) pos.x pos.y then
    let gs := acc.1
    let j := acc.2
    let tangent := bezierTangent f.toBezierPts t
    let len0 := Real.sqrt (tangent.dx * tangent.dx + tangent.dy * tangent.dy)
    let len := if len0 = 0 then 1 else len0
    let nx := -tangent.dy / len
    let ny := tangent.dx / len
    let minWidth : ℝ := 5
    let maxWidth : ℝ := 120
    let width := minWidth + (maxWidth - minWidth) * t ^ (1.2 : ℝ)
    let og := gauss ρ j 0 width
    let offset := og.1
    let j1 := og.2
    let dist := Real.sqrt ((pos.x - o.x) ^ 2 + (pos.y - o.y) ^ 2)
    let g : Galaxy :=
      { x := pos.x + nx * offset
        y := pos.y + ny * offset
        baseSize := 0.5 + ρ j1 * 1.5
        phase := ρ (j1 + 1) * Real.pi * 2
        dist := dist
        filamentDepth := if f.depth = 0 then 1.0 else f.depth }
    (gs ++ [g], j1 + 2)
  else acc

/-- The galaxy population loop (lines 254-287), over every filament and
every curve index 0 .. pointsPerFilament - 1, starting from draw
index j. -/
def genGalaxies (o : Center) (ρ : ℕ → ℝ) (fs : List Filament) (j : ℕ) :
    List Galaxy × ℕ :=
  fs.foldl
    (fun acc f => (List.range config.pointsPerFilament).foldl (galaxyStep o ρ f) acc)
    ([], j)

/-- CosmicWeb.generateCosmicStructure (lines 152-288): early return on
a null portraitCenter, otherwise the three arrays are reassigned to
freshly built lists. -/
def generateCosmicStructure (ρ : ℕ → ℝ) (s : CWState) : CWState :=
  match s.portraitCenter with
  | none => s
  | some origin =>
      let clusters := genClusters origin ρ 0
      let filaments := genFilaments origin ρ (5 * config.clusterCount)
      let galaxies := (genGalaxies origin ρ filaments (5 * config.clusterCount + 5)).1
      { s with clusters := clusters, filaments := filaments, galaxies := galaxies }

/-! ### Resize handling (script.js lines 83-130) -/

structure Rect where
  left : ℝ
  top : ℝ
  width : ℝ
  height : ℝ
  bottom : ℝ

/-- The window-level inputs of updatePortraitPosition: the rectangle of
the .about-image element when present, the window size, and whether
the current pathname is an about-style page. -/
structure WinEnv where
  innerWidth : ℝ
  innerHeight : ℝ
  portraitRect : Option Rect
  isAboutPage : Bool

open Classical in
/-- CosmicWeb.updatePortraitPosition (lines 102-130): both branches
produce a (non-null) center record. -/
def updatePortraitPosition (env : WinEnv) : Center :=
  match env.portraitRect, env.isAboutPage with
  | some rect, true =>
      { x := rect.left + rect.width / 2
        y := rect.top + rect.height / 2
        radius := min rect.width rect.height / 2
        visible := decide (rect.top < env.innerHeight ∧ rect.bottom > 0)
        isPortraitOrigin := true }
  | _, _ =>
      let rightOffset := min (env.innerWidth * 0.75) (env.innerWidth - 250)
      { x := rightOffset
        y := min (env.innerHeight * 0.4) 400
        radius := 20
        visible := true
        isPortraitOrigin := false }

/-- CosmicWeb.resize (lines 97-100). -/
def resize (env : WinEnv) (s : CWState) : CWState :=
  { s with canvasW := env.innerWidth, canvasH := env.innerHeight }

/-- The window resize listener (lines 83-88): resize, recompute the
portrait center, copy it into initialPortraitCenter, regenerate. -/
def resizeHandler (env : WinEnv) (ρ : ℕ → ℝ) (s : CWState) : CWState :=
  let s1 := resize env s
  let c := updatePortraitPosition env
  let s2 := { s1 with portraitCenter := some c, initialPortraitCenter := some c }
  generateCosmicStructure ρ s2

/-! ### Per-frame drawing (script.js lines 310-544)

Drawing is modelled as a list of canvas events; colour channel strings
(the redshift gradient) are not modelled, but every geometric quantity
and every alpha value is. -/

inductive CanvasEvent
  | clearRect (w h : ℝ)
  | strokeSegment (x1 y1 x2 y2 lineWidth alpha : ℝ)
  | fillCircle (x y r alpha : ℝ)
  | scheduleFrame

/-- The data-theme attribute of the document element; `getAttribute`
returns null when the attribute is absent. -/
structure DocEnv where
  dataTheme : Option String

open Classical in
/-- The per-filament body of drawFilaments (lines 420-486): offset the
control points, compute the fade and alpha, then stroke twenty
segments of increasing width.  `f.angle3D || 0` and
`this.offsetX || 0` are the identity on real values. -/
def filamentEvents (origin : Center) (theme : String) (offsetX offsetY : ℝ)
    (f : Filament) : List CanvasEvent :=
  let p0x := f.p0.x + offsetX
  let p0y := f.p0.y + offsetY
  let p1x := f.p1.x + offsetX
  let p1y := f.p1.y + offsetY
  let p2x := f.p2.x + offsetX
  let p2y := f.p2.y + offsetY
  let p3x := f.p3.x + offsetX
  let p3y := f.p3.y + offsetY
  let midX := (p0x + p3x) / 2
  let midY := (p0y + p3y) / 2
  let distance := Real.sqrt ((midX - origin.x) ^ 2 + (midY - origin.y) ^ 2)
  let fadeFactor := if origin.isPortraitOrigin then max 0 (1 - distance / genMaxRadius) else 1
  let depth := if f.depth = 0 then 1.0 else f.depth
  let baseAlpha :=
    if f.type = FilamentType.background then
      (if theme = "light" then 0.03 else 0.01)
    else
      (if theme = "light" then 0.08 else 0.01)
  let alpha := baseAlpha * fadeFactor * depth
  let shifted : BezierPts :=
    { p0 := ⟨p0x, p0y⟩, p1 := ⟨p1x, p1y⟩, p2 := ⟨p2x, p2y⟩, p3 := ⟨p3x, p3y⟩ }
  (List.range 20).map (fun i =>
    let t1 := (i : ℝ) / 20
    let t2 := ((i : ℝ) + 1) / 20
    let pos1 := bezierPoint shifted t1
    let pos2 := bezierPoint shifted t2
    let orientationFactor := 0.4 + 0.6 * |Real.cos f.angle3D|
    let startWidth := if f.type = FilamentType.background then 0.15 else 0.2
    let endWidth := if f.type = FilamentType.background then 3.5 else 8.0
    let baseWidth := startWidth + (endWidth - startWidth) * t1
    let width := baseWidth * orientationFactor
    CanvasEvent.strokeSegment pos1.x pos1.y pos2.x pos2.y width alpha)

/-- CosmicWeb.drawFilaments (lines 407-488): early return when the
portrait center is null. -/
def drawFilamentsEvents (env : DocEnv) (s : CWState) : List CanvasEvent :=
  match s.portraitCenter with
  | none => []
  | some origin =>
      let theme := orDefault env.dataTheme "dark"
      (s.filaments.map (filamentEvents origin theme s.offsetX s.offsetY)).flatten

open Classical in
/-- The per-galaxy body of drawGalaxies (lines 499-537): shimmer alpha
and radius from this.time and the stored phase, positional wobble, and
the theme-dependent output alpha (the light branch multiplies by 100).
`g.filamentDepth || 1.0` falls back on a zero value. -/
def galaxyEvent (origin : Center) (theme : String) (time offsetX offsetY : ℝ)
    (g : Galaxy) : CanvasEvent :=
  let gx := g.x + offsetX
  let gy := g.y + offsetY
  let distance := Real.sqrt ((gx - origin.x) ^ 2 + (gy - origin.y) ^ 2)
  let fadeFactor := if origin.isPortraitOrigin then max 0 (1 - distance / genMaxRadius) else 1
  let filamentDepth := if g.filamentDepth = 0 then 1.0 else g.filamentDepth
  let depthBrightness := if filamentDepth = 1.0 then 2.5 else 0.5
  let baseAlpha := 0.7 + 0.3 * Real.sin (time * config.shimmerSpeed + g.phase)
  let alpha := baseAlpha * fadeFactor * depthBrightness
  let r := g.baseSize * (0.7 + 0.3 * Real.sin (time * config.shimmerSpeed + g.phase))
  let x := gx + config.motionAmplitude * Real.sin (time * 0.001 + g.phase)
  let y := gy + config.motionAmplitude * Real.cos (time * 0.001 + g.phase)
  let alphaOut := if theme = "light" then alpha * 100 else alpha
  CanvasEvent.fillCircle x y r alphaOut

/-- CosmicWeb.drawGalaxies (lines 490-538). -/
def drawGalaxiesEvents (env : DocEnv) (s : CWState) : List CanvasEvent :=
  match s.portraitCenter with
  | none => []
  | some origin =>
      s.galaxies.map (galaxyEvent origin (orDefault env.dataTheme "dark") s.time s.offsetX s.offsetY)

/-- CosmicWeb.drawBigBangPoint (lines 331-364): five static glow layers
at the origin (pulse is the constant 1). -/
def bigBangEvents (s : CWState) : List CanvasEvent :=
  match s.portraitCenter with
  | none => []
  | some origin =>
      let pulse : ℝ := 1
      [((40 : ℝ) * pulse, (0.15 : ℝ)), (25 * pulse, 0.3), (15 * pulse, 0.5),
        (8 * pulse, 0.8), (3 * pulse, 1.0)].map
        (fun g => CanvasEvent.fillCircle origin.x origin.y g.1 g.2)

/-- CosmicWeb.draw (lines 310-329): clear, early return when either
center is unset, otherwise write offsetX/offsetY and draw the layers,
with the big-bang point only on non-portrait pages. -/
def draw (env : DocEnv) (s : CWState) : CWState × List CanvasEvent :=
  let clear := CanvasEvent.clearRect s.canvasW s.canvasH
  match s.portraitCenter, s.initialPortraitCenter with
  | some pc, some ipc =>
      let s1 := { s with offsetX := pc.x - ipc.x, offsetY := pc.y - ipc.y }
      let tail := if pc.isPortraitOrigin then [] else bigBangEvents s1
      (s1, clear :: (drawFilamentsEvents env s1 ++ drawGalaxiesEvents env s1 ++ tail))
  | _, _ => (s, [clear])

/-- CosmicWeb.animate (lines 540-544): store the timestamp, draw once,
and schedule exactly one further animation-frame callback. -/
def animate (env : DocEnv) (time : ℝ) (s : CWState) : CWState × List CanvasEvent :=
  let s1 := { s with time := time }
  let d := draw env s1
  (d.1, d.2 ++ [CanvasEvent.scheduleFrame])

/-- Recognises the requestAnimationFrame event. -/
def isScheduleFrame : CanvasEvent → Bool
  | CanvasEvent.scheduleFrame => true
  | _ => false

/-! ### Component construction and App start-up (script.js lines
553-599, 645-656, 716-726, 905-966)

A constructor is modelled as an Except value: ok on normal completion,
error on a thrown TypeError.  Member access on a null element throws
in JS; the models record exactly which absent element triggers it. -/

structure BtnEl where
  innerHTML : String

structure FormEl where
  submitBtn : Option BtnEl

structure ThemeToggleEl where
  icon : Option Unit

/-- The document elements the component constructors query, each absent
or present. -/
structure Dom where
  canvas : Option Unit
  navbar : Option Unit
  navToggle : Option Unit
  navMenu : Option Unit
  themeToggleEl : Option ThemeToggleEl
  contactForm : Option FormEl
  store : Option String

def typeError : String := "TypeError: cannot read properties of null"

/-- The field initialisation of a fresh CosmicWeb instance
(lines 13-20); the default canvas size is not modelled. -/
def initialCW : CWState :=
  { canvasW := 0, canvasH := 0, filaments := [], clusters := [], galaxies := []
    portraitCenter := none, initialPortraitCenter := none
    time := 0, offsetX := 0, offsetY := 0 }

/-- CosmicWeb constructor (lines 8-40): `this.canvas.getContext` on
line 10 throws when the canvas element is absent; there is no null
check. -/
def cosmicWebNew (dom : Dom) : Except String CWState :=
  match dom.canvas with
  | none => Except.error typeError
  | some _ => Except.ok initialCW

/-- Navigation constructor plus init (lines 554-599):
setupMobileMenu dereferences navToggle on line 587 with no null check
(navbar and navMenu are only read inside deferred event handlers). -/
def navigationNew (dom : Dom) : Except String Unit :=
  match dom.navToggle with
  | none => Except.error typeError
  | some _ => Except.ok ()

/-- ThemeToggle constructor plus init (lines 645-656): applyTheme
dereferences the toggle element (line 671) and then the icon
(lines 674-676) with no null check.  On success the instance holds
currentTheme read from storage. -/
def themeToggleConstruct (dom : Dom) : Except String String :=
  let currentTheme := orDefault dom.store "dark"
  match dom.themeToggleEl with
  | none => Except.error typeError
  | some el =>
      match el.icon with
      | none => Except.error typeError
      | some _ => Except.ok currentTheme

/-- ScrollAnimations constructor (lines 682-711) only iterates over
query lists and never dereferences a possibly-null element. -/
def scrollAnimationsNew (_dom : Dom) : Except String Unit := Except.ok ()

structure ContactFormInst where
  originalBtnText : String

/-- ContactForm constructor (lines 716-722): `this.form.querySelector`
on line 718 throws when the form is absent, and
`this.submitBtn.innerHTML` on line 719 throws when the submit button
is absent; there is no null check. -/
def contactFormNew (dom : Dom) : Except String ContactFormInst :=
  match dom.contactForm with
  | none => Except.error typeError
  | some form =>
      match form.submitBtn with
      | none => Except.error typeError
      | some btn => Except.ok { originalBtnText := btn.innerHTML }

/-- The try-block body of App.initializeComponents (lines 926-945):
the five constructions in source order, each able to throw. -/
def initializeComponentsUncaught (dom : Dom) :
    Except String (CWState × Unit × String × Unit × ContactFormInst) := do
  let starField ← cosmicWebNew dom
  let navigation ← navigationNew dom
  let themeState ← themeToggleConstruct dom
  let anims ← scrollAnimationsNew dom
  let form ← contactFormNew dom
  Except.ok (starField, navigation, themeState, anims, form)

/-- The outcome of evaluating a JS statement: normal completion or a
propagated exception. -/
inductive JsOutcome (α : Type _)
  | normal (value : α)
  | thrown (err : String)

structure AppState where
  components : Option (CWState × Unit × String × Unit × ContactFormInst)
  logs : List String

/-- App.initializeComponents (lines 925-949): the whole body sits in a
try/catch whose handler only logs, so a thrown construction error is
converted into normal completion. -/
def initializeComponents (dom : Dom) : JsOutcome AppState :=
  match initializeComponentsUncaught dom with
  | Except.ok comps =>
      JsOutcome.normal
        { components := some comps
          logs := ["Astrophysics portfolio loaded successfully!"] }
  | Except.error e =>
      JsOutcome.normal { components := none, logs := ["Error initializing app: " ++ e] }

/-! ### Sample inputs used by concrete instantiations -/

/-- A non-portrait center at the origin with radius 20, as
updatePortraitPosition builds for non-about pages. -/
def centerSample : Center :=
  { x := 0, y := 0, radius := 20, visible := true, isPortraitOrigin := false }

/-- The random stream whose every draw is 0 (a legal Math.random()
value). -/
def streamZero : ℕ → ℝ := fun _ => 0

/-- A fresh instance whose portrait center has been set. -/
def stateSample : CWState := { initialCW with portraitCenter := some centerSample }

/-- A document with every element present except the contact form. -/
def domMissingForm : Dom :=
  { canvas := some (), navbar := some (), navToggle := some (), navMenu := some ()
    themeToggleEl := some { icon := some () }, contactForm := none, store := none }

def docEnvSample : DocEnv := { dataTheme := none }

end

/-! ### Theorems -/

/-- C10: Bezier endpoint identity: for every record f of control points
p0, p1, p2, p3, bezierPoint f 0 equals f.p0 and bezierPoint f 1 equals
f.p3, in exact real arithmetic. -/
theorem bezierPoint_endpoints (f : BezierPts) :
    bezierPoint f 0 = f.p0 ∧ bezierPoint f 1 = f.p3 := by
  constructor <;> ext <;> simp [bezierPoint]

/-- C2: ThemeToggle.toggleTheme switches currentTheme from dark to
light and from anything else to dark, applies that value as the
document data-theme attribute, stores it under the key "theme", and a
ThemeToggle constructed from the resulting storage reads back exactly
that value as its currentTheme. -/
theorem themeToggle_roundtrip (currentTheme : String) (dom : ThemeDom) :
    (toggleTheme currentTheme dom).1 =
        (if currentTheme = "dark" then "light" else "dark") ∧
    (toggleTheme currentTheme dom).2.dataTheme = some (toggleTheme currentTheme dom).1 ∧
    (toggleTheme currentTheme dom).2.store = some (toggleTheme currentTheme dom).1 ∧
    (themeToggleNew (toggleTheme currentTheme dom).2).1 = (toggleTheme currentTheme dom).1 := by
  by_cases h : currentTheme = "dark" <;>
    simp [toggleTheme, applyTheme, themeToggleNew, orDefault, h]

/-- C3: simulateFormSubmission resolves exactly when the draw exceeds
0.1 and otherwise rejects with the fixed failure message; handleSubmit
resets the form and appends the success notification only on resolve,
appends the error message on reject, and restores the button label and
enabled state in both cases. -/
theorem contactForm_submit_spec (originalBtnText : String) (r : ℚ) (s : FormState) :
    simulateFormSubmission r =
      (if r > 0.1 then Except.ok () else Except.error failMessage) ∧
    handleSubmit originalBtnText r s =
      (if r > 0.1 then
        { fields := [], btnHTML := originalBtnText, btnDisabled := false
          notifications := s.notifications ++ [(successMessage, "success")] }
      else
        { fields := s.fields, btnHTML := originalBtnText, btnDisabled := false
          notifications := s.notifications ++ [(failMessage, "error")] }) := by
  refine ⟨rfl, ?_⟩
  by_cases h : r > (0.1 : ℚ) <;>
    simp [handleSubmit, simulateFormSubmission, setLoadingState, showNotification, h]

/-- C5: the resize handler recomputes the three draw-primitive arrays
from the window environment and the random stream alone: two runs from
arbitrary different pre-resize array contents end with identical
clusters, filaments and galaxies. -/
theorem resizeHandler_recomputes (env : WinEnv) (ρ : ℕ → ℝ) (s1 s2 : CWState) :
    (resizeHandler env ρ s1).clusters = (resizeHandler env ρ s2).clusters ∧
    (resizeHandler env ρ s1).filaments = (resizeHandler env ρ s2).filaments ∧
    (resizeHandler env ρ s1).galaxies = (resizeHandler env ρ s2).galaxies :=
  ⟨rfl, rfl, rfl⟩

/-- C7: App.initializeComponents never propagates an exception: for
every document, including ones missing the canvas, navbar, theme
toggle or contact form, it completes normally because the try/catch
converts any construction error into a logged normal result. -/
theorem initializeComponents_never_throws (dom : Dom) :
    ∃ a, initializeComponents dom = JsOutcome.normal a := by
  unfold initializeComponents
  cases initializeComponentsUncaught dom <;> exact ⟨_, rfl⟩

/-- C8: CosmicWeb.draw writes no instance fields other than offsetX
and offsetY: the post-draw state is the pre-draw state with only those
two fields replaced, so the filament, cluster and galaxy arrays are
untouched by a redraw. -/
theorem draw_frame_effect (env : DocEnv) (s : CWState) :
    ∃ ox oy, (draw env s).1 = { s with offsetX := ox, offsetY := oy } := by
  obtain ⟨cw, ch, fs, cs, gs, pc0, ipc0, tm, ox0, oy0⟩ := s
  cases pc0 with
  | none => exact ⟨ox0, oy0, rfl⟩
  | some pc =>
      cases ipc0 with
      | none => exact ⟨ox0, oy0, rfl⟩
      | some ipc => exact ⟨pc.x - ipc.x, pc.y - ipc.y, rfl⟩

theorem filamentEvents_no_schedule (origin : Center) (theme : String)
    (ox oy : ℝ) (f : Filament) (e : CanvasEvent)
    (he : e ∈ filamentEvents origin theme ox oy f) : isScheduleFrame e = false := by
  simp only [filamentEvents, List.mem_map, List.mem_range] at he
  obtain ⟨i, _, rfl⟩ := he
  rfl

theorem drawFilamentsEvents_no_schedule (env : DocEnv) (s : CWState) (e : CanvasEvent)
    (he : e ∈ drawFilamentsEvents env s) : isScheduleFrame e = false := by
  unfold drawFilamentsEvents at he
  rcases hpc : s.portraitCenter with _ | pc
  · rw [hpc] at he; simp at he
  · rw [hpc] at he
    simp only [List.mem_flatten, List.mem_map] at he
    obtain ⟨l, ⟨f, _, rfl⟩, hel⟩ := he
    exact filamentEvents_no_schedule _ _ _ _ _ _ hel

theorem drawGalaxiesEvents_no_schedule (env : DocEnv) (s : CWState) (e : CanvasEvent)
    (he : e ∈ drawGalaxiesEvents env s) : isScheduleFrame e = false := by
  unfold drawGalaxiesEvents at he
  rcases hpc : s.portraitCenter with _ | pc
  · rw [hpc] at he; simp at he
  · rw [hpc] at he
    simp only [List.mem_map] at he
    obtain ⟨g, _, rfl⟩ := he
    rfl

theorem bigBangEvents_no_schedule (s : CWState) (e : CanvasEvent)
    (he : e ∈ bigBangEvents s) : isScheduleFrame e = false := by
  unfold bigBangEvents at he
  rcases hpc : s.portraitCenter with _ | pc
  · rw [hpc] at he; simp at he
  · rw [hpc] at he
    simp only [List.mem_map] at he
    obtain ⟨g, _, rfl⟩ := he
    rfl

theorem draw_no_schedule (env : DocEnv) (s : CWState) (e : CanvasEvent)
    (he : e ∈ (draw env s).2) : isScheduleFrame e = false := by
  unfold draw at he
  rcases hpc : s.portraitCenter with _ | pc
  · rw [hpc] at he
    simp at he
    subst he; rfl
  · rcases hic : s.initialPortraitCenter with _ | ipc
    · rw [hpc, hic] at he
      simp at he
      subst he; rfl
    · rw [hpc, hic] at he
      simp only [List.mem_cons, List.mem_append] at he
      rcases he with rfl | ((h1 | h2) | h3)
      · rfl
      · exact drawFilamentsEvents_no_schedule _ _ _ h1
      · exact drawGalaxiesEvents_no_schedule _ _ _ h2
      · by_cases hb : pc.isPortraitOrigin = true
        · rw [if_pos hb] at h3; simp at h3
        · rw [if_neg hb] at h3
          exact bigBangEvents_no_schedule _ _ h3

theorem draw_countP_schedule (env : DocEnv) (s : CWState) :
    (draw env s).2.countP isScheduleFrame = 0 := by
  rw [List.countP_eq_zero]
  intro e he
  simp only [Bool.not_eq_true]
  exact draw_no_schedule env s e he

/-- C4: every invocation of CosmicWeb.animate stores the timestamp,
performs exactly the one draw of the current state, and schedules
exactly one further animation-frame callback: its event trace is the
draw trace followed by a single scheduleFrame event, and the trace
contains exactly one scheduleFrame. -/
theorem animate_schedules_one_frame (env : DocEnv) (t : ℝ) (s : CWState) :
    animate env t s =
      ((draw env { s with time := t }).1,
        (draw env { s with time := t }).2 ++ [CanvasEvent.scheduleFrame]) ∧
    (animate env t s).2.countP isScheduleFrame = 1 := by
  constructor
  · rfl
  · show ((draw env { s with time := t }).2 ++
        [CanvasEvent.scheduleFrame]).countP isScheduleFrame = 1
    rw [List.countP_append, draw_countP_schedule]
    rfl

theorem galaxyStep_length_le (o : Center) (ρ : ℕ → ℝ) (f : Filament)
    (acc : List Galaxy × ℕ) (i : ℕ) :
    (galaxyStep o ρ f acc i).1.length ≤ acc.1.length + 1 := by
  simp only [galaxyStep]
  by_cases hw : inWedge (some o)
      (bezierPoint f.toBezierPts ((i : ℝ) / (config.pointsPerFilament : ℝ))).x
      (bezierPoint f.toBezierPts ((i : ℝ) / (config.pointsPerFilament : ℝ))).y
  · rw [if_pos hw]; simp
  · rw [if_neg hw]; exact Nat.le_succ _

theorem foldl_galaxyStep_length (o : Center) (ρ : ℕ → ℝ) (f : Filament)
    (l : List ℕ) :
    ∀ acc : List Galaxy × ℕ,
      (l.foldl (galaxyStep o ρ f) acc).1.length ≤ acc.1.length + l.length := by
  induction l with
  | nil => intro acc; simp
  | cons i is ih =>
      intro acc
      have h2 := galaxyStep_length_le o ρ f acc i
      have h1 := ih (galaxyStep o ρ f acc i)
      simp only [List.foldl_cons, List.length_cons]
      omega

theorem genGalaxies_length (o : Center) (ρ : ℕ → ℝ) (fs : List Filament) (j : ℕ) :
    (genGalaxies o ρ fs j).1.length ≤ fs.length * config.pointsPerFilament := by
  have key : ∀ (gs : List Filament) (acc : List Galaxy × ℕ),
      (gs.foldl
        (fun acc f => (List.range config.pointsPerFilament).foldl (galaxyStep o ρ f) acc)
        acc).1.length ≤ acc.1.length + gs.length * config.pointsPerFilament := by
    intro gs
    induction gs with
    | nil => intro acc; simp
    | cons f rest ih =>
        intro acc
        have h1 := foldl_galaxyStep_length o ρ f (List.range config.pointsPerFilament) acc
        have h2 := ih ((List.range config.pointsPerFilament).foldl (galaxyStep o ρ f) acc)
        simp only [List.foldl_cons, List.length_cons, List.length_range] at h1 h2 ⊢
        refine le_trans h2 (le_trans (Nat.add_le_add_right h1 _) (Nat.le_of_eq ?_))
        ring
  have := key fs ([], j)
  simpa [genGalaxies] using this

theorem genFilaments_length (o : Center) (ρ : ℕ → ℝ) (j : ℕ) :
    (genFilaments o ρ j).length = 15 := by
  simp [genFilaments, config]

/-- C9: with portraitCenter set, generateCosmicStructure leaves exactly
15 filaments (ten major plus five background) and 35 clusters, and at
most 15 * 1200 = 18000 galaxies, since each filament contributes at
most pointsPerFilament galaxies. -/
theorem generateCosmicStructure_counts (ρ : ℕ → ℝ) (s : CWState) (c : Center)
    (h : s.portraitCenter = some c) :
    (generateCosmicStructure ρ s).filaments.length = 15 ∧
    (generateCosmicStructure ρ s).clusters.length = 35 ∧
    (generateCosmicStructure ρ s).galaxies.length ≤ 18000 := by
  have hgen : generateCosmicStructure ρ s =
      { s with clusters := genClusters c ρ 0
               filaments := genFilaments c ρ (5 * config.clusterCount)
               galaxies := (genGalaxies c ρ (genFilaments c ρ (5 * config.clusterCount))
                 (5 * config.clusterCount + 5)).1 } := by
    unfold generateCosmicStructure
    rw [h]
  have hfil : (generateCosmicStructure ρ s).filaments =
      genFilaments c ρ (5 * config.clusterCount) := by rw [hgen]
  have hclu : (generateCosmicStructure ρ s).clusters = genClusters c ρ 0 := by rw [hgen]
  have hgal : (generateCosmicStructure ρ s).galaxies =
      (genGalaxies c ρ (genFilaments c ρ (5 * config.clusterCount))
        (5 * config.clusterCount + 5)).1 := by rw [hgen]
  refine ⟨?_, ?_, ?_⟩
  · rw [hfil]; exact genFilaments_length c ρ _
  · rw [hclu]; simp [genClusters, config]
  · rw [hgal]
    have hb := genGalaxies_length c ρ (genFilaments c ρ (5 * config.clusterCount))
      (5 * config.clusterCount + 5)
    rw [genFilaments_length] at hb
    exact le_trans hb (by norm_num [config])

/-- Witness for C9 at a concrete state whose portrait center is set. -/
theorem generateCosmicStructure_counts_witness :
    stateSample.portraitCenter = some centerSample ∧
    ((generateCosmicStructure streamZero stateSample).filaments.length = 15 ∧
     (generateCosmicStructure streamZero stateSample).clusters.length = 35 ∧
     (generateCosmicStructure streamZero stateSample).galaxies.length ≤ 18000) :=
  ⟨rfl, generateCosmicStructure_counts streamZero stateSample centerSample rfl⟩

theorem mkCluster_streamZero_x (j : ℕ) : (mkCluster centerSample streamZero j).x = -30 := by
  have h08 : (0.8 : ℝ) ≠ 0 := by norm_num
  simp only [mkCluster, rand, streamZero, centerSample]
  rw [Real.zero_rpow h08]
  ring

theorem genClusters_streamZero_x (cl : Cluster)
    (hcl : cl ∈ genClusters centerSample streamZero 0) : cl.x = -30 := by
  simp only [genClusters, List.mem_map] at hcl
  obtain ⟨i, _, rfl⟩ := hcl
  exact mkCluster_streamZero_x _

theorem majorFilament_zero_p0 : (majorFilament centerSample 0).p0 = Pt.mk 20 0 := by
  simp only [majorFilament, centerSample]
  ext <;> simp

/-- C1 counterexample: at a concrete portrait center and random
stream, the first major filament has a start point that coincides with
no seeded cluster point at all, so it is false that every filament
connects a pair of previously seeded points (under any distance
threshold). -/
theorem filaments_not_cluster_links :
    ¬ (∀ f ∈ (generateCosmicStructure streamZero stateSample).filaments,
        (∃ c1 ∈ (generateCosmicStructure streamZero stateSample).clusters,
          f.p0 = Pt.mk c1.x c1.y) ∧
        (∃ c2 ∈ (generateCosmicStructure streamZero stateSample).clusters,
          f.p3 = Pt.mk c2.x c2.y)) := by
  intro hAll
  have hfil : (generateCosmicStructure streamZero stateSample).filaments =
      genFilaments centerSample streamZero (5 * config.clusterCount) := rfl
  have hclu : (generateCosmicStructure streamZero stateSample).clusters =
      genClusters centerSample streamZero 0 := rfl
  have hmem : majorFilament centerSample 0 ∈
      (generateCosmicStructure streamZero stateSample).filaments := by
    rw [hfil]
    unfold genFilaments
    exact List.mem_append_left _ (List.mem_map_of_mem _ (by simp [config]))
  obtain ⟨⟨c1, hc1, hp0⟩, -⟩ := hAll _ hmem
  have hcx : c1.x = -30 := by
    apply genClusters_streamZero_x
    rwa [hclu] at hc1
  have hx : (majorFilament centerSample 0).p0.x = c1.x := by rw [hp0]
  rw [majorFilament_zero_p0, hcx] at hx
  norm_num at hx

/-- C1 amended: the seeded cluster points are not the filament
endpoints; instead every filament generated by generateCosmicStructure
starts on the circle of radius origin.radius around the origin (the
radial construction of lines 178-252). -/
theorem filament_start_on_origin_circle (o : Center) (ρ : ℕ → ℝ) (j : ℕ)
    (f : Filament) (hf : f ∈ genFilaments o ρ j) :
    Real.sqrt ((f.p0.x - o.x) ^ 2 + (f.p0.y - o.y) ^ 2) = |o.radius| := by
  have key : ∀ θ : ℝ,
      Real.sqrt ((o.x + o.radius * Real.cos θ - o.x) ^ 2 +
        (o.y + o.radius * Real.sin θ - o.y) ^ 2) = |o.radius| := by
    intro θ
    have h1 : (o.x + o.radius * Real.cos θ - o.x) ^ 2 +
        (o.y + o.radius * Real.sin θ - o.y) ^ 2 = o.radius ^ 2 := by
      have hpyth := Real.sin_sq_add_cos_sq θ
      calc (o.x + o.radius * Real.cos θ - o.x) ^ 2 +
            (o.y + o.radius * Real.sin θ - o.y) ^ 2
          = o.radius ^ 2 * (Real.sin θ ^ 2 + Real.cos θ ^ 2) := by ring
        _ = o.radius ^ 2 := by rw [hpyth, mul_one]
    rw [h1, Real.sqrt_sq_eq_abs]
  unfold genFilaments at hf
  rcases List.mem_append.mp hf with hmaj | hbg
  · obtain ⟨i, -, rfl⟩ := List.mem_map.mp hmaj
    exact key _
  · obtain ⟨i, -, rfl⟩ := List.mem_map.mp hbg
    exact key _

/-- Witness for the amended C1 at the first major filament of a
concrete generation. -/
theorem filament_start_on_origin_circle_witness :
    Real.sqrt (((majorFilament centerSample 0).p0.x - centerSample.x) ^ 2 +
      ((majorFilament centerSample 0).p0.y - centerSample.y) ^ 2) = |centerSample.radius| :=
  filament_start_on_origin_circle centerSample streamZero (5 * config.clusterCount)
    (majorFilament centerSample 0)
    (by unfold genFilaments
        exact List.mem_append_left _ (List.mem_map_of_mem _ (by simp [config])))

/-- C6 counterexample: the ContactForm constructor performs no null
check: on a document without the contact form it throws a TypeError
(`this.form.querySelector` on null) instead of returning without
effect. -/
theorem contactForm_constructor_throws :
    contactFormNew domMissingForm = Except.error typeError := rfl

/-- C6 amended: the drawing operations do guard against missing
DOM-derived state: CosmicWeb.draw clears the canvas and returns, with
the state unchanged, whenever portraitCenter or initialPortraitCenter
is unset; but the component constructors (ContactForm, Navigation,
ThemeToggle, CosmicWeb) have no such checks and throw on missing
elements. -/
theorem draw_missing_center_no_effect (env : DocEnv) (s : CWState)
    (h : s.portraitCenter = none ∨ s.initialPortraitCenter = none) :
    draw env s = (s, [CanvasEvent.clearRect s.canvasW s.canvasH]) := by
  obtain ⟨cw, ch, fs, cs, gs, pc0, ipc0, tm, ox0, oy0⟩ := s
  rcases h with h | h
  · simp only at h
    subst h
    rfl
  · simp only at h
    subst h
    cases pc0 <;> rfl

/-- Witness for the amended C6 at a concrete state with both centers
unset. -/
theorem draw_missing_center_no_effect_witness :
    draw docEnvSample initialCW =
      (initialCW, [CanvasEvent.clearRect initialCW.canvasW initialCW.canvasH]) :=
  draw_missing_center_no_effect docEnvSample initialCW (Or.inl rfl)

end PersonalWeb
